import Mathlib

/-!
Verification of the number-reservation core (`services/number_manager.py`,
`handlers/number_handlers.py`, `database.py`) as a shallow embedding.

The two persistent tables that the reservation lifecycle touches are the
`numbers` table (the resource store) and the `number_requests` table (the
lease ledger).  Rows are embedded as structures whose fields follow the
SQLite schema in `database.py`; timestamps are natural numbers (the stored
`"%Y-%m-%d %H:%M:%S"` strings compare chronologically, so a `Nat` clock is
an order-faithful model), and lease statuses are the literal strings
`"PENDING"`, `"SUCCESS"`, `"EXPIRED"`, `"CANCELLED"` stored in the TEXT
column.  Randomness (`random.random() < 0.3`, `random.randint`) and the
generated `uuid` are passed in as explicit parameters.
-/

/-- A row of the `numbers` table (resource store), per the schema in
`database.py` (`id, country_id, number, platform, added_at, is_premium,
times_used, last_used, is_active, last_used_by`; `added_by` and
`premium_pattern` are never read by the reservation core and are omitted). -/
structure NumberRow where
  id : Nat
  country_id : Nat
  number : String
  platform : String
  added_at : Nat
  is_premium : Bool
  times_used : Nat
  last_used : Option Nat
  is_active : Bool
  last_used_by : Option Nat
deriving DecidableEq, Repr

/-- A row of the `number_requests` table (lease ledger), per the schema in
`database.py`. -/
structure RequestRow where
  id : Nat
  user_id : Nat
  number_id : Nat
  api_request_id : String
  status : String
  expires_at : Nat
  code : Option String
  requested_at : Nat
deriving DecidableEq, Repr

/-- The database state visible to the reservation core: the `numbers` and
`number_requests` tables. -/
structure DBState where
  numbers : List NumberRow
  number_requests : List RequestRow
deriving DecidableEq, Repr

/-- `NumberManager.request_expiry_minutes` (constructor of
`services/number_manager.py`). -/
def request_expiry_minutes : Nat := 5

/-- The dictionary returned by `NumberManager.initialize_number_request`
on success. -/
structure InitResult where
  number_id : Nat
  number : String
  platform : String
  api_request_id : String
  expires_at : Nat
deriving DecidableEq, Repr

/-- `NumberManager.initialize_number_request` (lines 168-216).  Looks up the
number with `id = number_id AND is_active = 1`; if absent returns `None`.
Otherwise inserts a PENDING row into `number_requests` with
`expires_at = now + request_expiry_minutes` and then updates the `numbers`
row: `is_active = 0, last_used = now, last_used_by = user_id`.  The fresh
`uuid` and the autoincrement id of the insert are the explicit parameters
`api_request_id` and `next_id`. -/
def initialize_number_request (s : DBState) (user_id number_id : Nat)
    (api_request_id : String) (now next_id : Nat) :
    Option InitResult × DBState :=
  match s.numbers.find? (fun r => r.id == number_id && r.is_active) with
  | none => (none, s)
  | some number_data =>
    let expires_at := now + request_expiry_minutes * 60
    let req : RequestRow :=
      { id := next_id, user_id := user_id, number_id := number_id,
        api_request_id := api_request_id, status := "PENDING",
        expires_at := expires_at, code := none, requested_at := now }
    let s1 : DBState := { s with number_requests := s.number_requests ++ [req] }
    let s2 : DBState :=
      { s1 with numbers := s1.numbers.map (fun r =>
          if r.id == number_id then
            { r with is_active := false, last_used := some now,
                     last_used_by := some user_id }
          else r) }
    (some { number_id := number_id, number := number_data.number,
            platform := number_data.platform,
            api_request_id := api_request_id, expires_at := expires_at }, s2)

/-- `NumberManager.finalize_number_request` (lines 267-297).  First the
conditional update `UPDATE number_requests SET status = ?, code = ? WHERE
user_id = ? AND number_id = ? AND status = 'PENDING'`; then,
unconditionally on the request update having matched anything:
for `EXPIRED`/`CANCELLED` the number is re-activated
(`UPDATE numbers SET is_active = 1 WHERE id = ?`), for `SUCCESS` its usage
counter is incremented (`times_used = times_used + 1`). -/
def finalize_number_request (s : DBState) (user_id number_id : Nat)
    (status : String) (code : Option String) : DBState :=
  let s1 : DBState :=
    { s with number_requests := s.number_requests.map (fun r =>
        if r.user_id == user_id && r.number_id == number_id &&
           r.status == "PENDING" then
          { r with status := status, code := code }
        else r) }
  if status == "EXPIRED" || status == "CANCELLED" then
    { s1 with numbers := s1.numbers.map (fun r =>
        if r.id == number_id then { r with is_active := true } else r) }
  else if status == "SUCCESS" then
    { s1 with numbers := s1.numbers.map (fun r =>
        if r.id == number_id then { r with times_used := r.times_used + 1 }
        else r) }
  else s1

/-- Descending order on `requested_at`, modelling
`ORDER BY requested_at DESC`. -/
def requestOrder (a b : RequestRow) : Prop :=
  b.requested_at ≤ a.requested_at

instance : DecidableRel requestOrder := fun a b =>
  inferInstanceAs (Decidable (b.requested_at ≤ a.requested_at))

instance : IsTotal RequestRow requestOrder :=
  ⟨fun a b => Nat.le_total b.requested_at a.requested_at⟩

instance : IsTrans RequestRow requestOrder :=
  ⟨fun _ _ _ h1 h2 => Nat.le_trans h2 h1⟩

/-- The `SELECT * FROM number_requests WHERE user_id = ? AND number_id = ?
AND status = 'PENDING' ORDER BY requested_at DESC LIMIT 1` query at the top
of `NumberManager.check_for_code`. -/
def findPendingRequest (s : DBState) (user_id number_id : Nat) :
    Option RequestRow :=
  (List.insertionSort requestOrder
    (s.number_requests.filter (fun r =>
      r.user_id == user_id && r.number_id == number_id &&
      r.status == "PENDING"))).head?

/-- The triple returned by the embedding of `NumberManager.check_for_code`:
the Python return value (`code`, `"EXPIRED"` or `None`), the database state
afterwards, and whether `_simulate_api_check` (the Verification Oracle) was
consulted during the call. -/
structure CheckResult where
  result : Option String
  state : DBState
  consulted : Bool
deriving Repr

/-- `NumberManager.check_for_code` (lines 218-251).  `oracle` is the
`_simulate_api_check` collaborator, keyed by the stored `api_request_id`.
No pending request: return `None` untouched.  Expired
(`expires_at < now`): finalize as EXPIRED and return `"EXPIRED"` without
consulting the oracle.  Otherwise ask the oracle; on a code finalize as
SUCCESS and return it, else return `None`. -/
def check_for_code (s : DBState) (user_id number_id : Nat) (now : Nat)
    (oracle : String → Option String) : CheckResult :=
  match findPendingRequest s user_id number_id with
  | none => ⟨none, s, false⟩
  | some request =>
    if request.expires_at < now then
      ⟨some "EXPIRED",
       finalize_number_request s user_id number_id "EXPIRED" none, false⟩
    else
      match oracle request.api_request_id with
      | some code =>
        ⟨some code,
         finalize_number_request s user_id number_id "SUCCESS" (some code),
         true⟩
      | none => ⟨none, s, true⟩

/-- Model of Python's `random.randint lo hi`: some integer of the inclusive
range `[lo, hi]`, selected by the seed. -/
def randint (lo hi seed : Nat) : Nat :=
  lo + seed % (hi + 1 - lo)

/-- `NumberManager._simulate_api_check` (lines 253-265).  `fired` models
`random.random() < 0.3`; on success the delivered code is
`str(random.randint(100000, 999999))`. -/
def simulate_api_check (fired : Bool) (seed : Nat) : Option String :=
  if fired then some (Nat.repr (randint 100000 999999 seed)) else none

/-- Failure points inside `initialize_number_request`: the INSERT into
`number_requests` raising, or the subsequent UPDATE of `numbers` raising. -/
inductive InitFailure where
  | insertFailure
  | updateFailure
deriving DecidableEq, Repr

/-- `NumberManager.initialize_number_request` with an injected persistence
failure.  `Database.execute` (`database.py` lines 66-82) commits after each
single statement, so a statement that completed before the failing one
stays committed; the `except` clause of `initialize_number_request` then
returns `None`.  `failure = none` is the normal run. -/
def initialize_number_request_with_failure (s : DBState)
    (user_id number_id : Nat) (api_request_id : String) (now next_id : Nat)
    (failure : Option InitFailure) : Option InitResult × DBState :=
  match s.numbers.find? (fun r => r.id == number_id && r.is_active) with
  | none => (none, s)
  | some _ =>
    let expires_at := now + request_expiry_minutes * 60
    match failure with
    | some .insertFailure => (none, s)
    | some .updateFailure =>
      let req : RequestRow :=
        { id := next_id, user_id := user_id, number_id := number_id,
          api_request_id := api_request_id, status := "PENDING",
          expires_at := expires_at, code := none, requested_at := now }
      (none, { s with number_requests := s.number_requests ++ [req] })
    | none =>
      initialize_number_request s user_id number_id api_request_id now next_id

/-- `number_cancel_request_handler` (`handlers/number_handlers.py` lines
214-228): it calls `finalize_number_request(user_id, number_id,
"CANCELLED")` unconditionally and reports success to the user; there is no
check that a PENDING lease exists and no failure path. -/
def number_cancel_request_handler (s : DBState) (user_id number_id : Nat) :
    DBState :=
  finalize_number_request s user_id number_id "CANCELLED" none

/-- The three user-visible outcomes of `number_check_code_handler`:
the "request expired" message, the "code received" message, and the
"code not ready yet" alert. -/
inductive CheckOutcome where
  | expiredMessage
  | codeMessage (code : String)
  | notReadyMessage
deriving DecidableEq, Repr

/-- `number_check_code_handler` (`handlers/number_handlers.py` lines
182-212): dispatches on the return value of `check_for_code` — equal to
`"EXPIRED"`, truthy (a non-empty string), or falsy (`None`). -/
def number_check_code_handler (s : DBState) (user_id number_id now : Nat)
    (oracle : String → Option String) : CheckOutcome × DBState :=
  let r := check_for_code s user_id number_id now oracle
  match r.result with
  | some c =>
    if c = "EXPIRED" then (.expiredMessage, r.state)
    else if c = "" then (.notReadyMessage, r.state)
    else (.codeMessage c, r.state)
  | none => (.notReadyMessage, r.state)

/-- The row filter of the listing query in
`NumberManager.get_numbers_for_country`: `country_id = ? AND is_active = 1`,
plus `AND is_premium = 0` when the caller is not PRO. -/
def visibleNumber (country_id : Nat) (is_pro : Bool) (r : NumberRow) : Bool :=
  r.country_id == country_id && r.is_active && (is_pro || !r.is_premium)

/-- `ORDER BY is_premium DESC, added_at DESC`: premium rows first, then the
most recently added first. -/
def listingOrder (a b : NumberRow) : Prop :=
  b.is_premium.toNat < a.is_premium.toNat ∨
    (a.is_premium = b.is_premium ∧ b.added_at ≤ a.added_at)

lemma bool_toNat_inj {a b : Bool} (h : a.toNat = b.toNat) : a = b := by
  cases a <;> cases b <;> simp_all [Bool.toNat]

instance : DecidableRel listingOrder := fun a b => by
  unfold listingOrder; infer_instance

instance : IsTotal NumberRow listingOrder := by
  constructor
  intro a b
  rcases Nat.lt_trichotomy a.is_premium.toNat b.is_premium.toNat with h | h | h
  · exact Or.inr (Or.inl h)
  · rcases Nat.le_total b.added_at a.added_at with h2 | h2
    · exact Or.inl (Or.inr ⟨bool_toNat_inj h, h2⟩)
    · exact Or.inr (Or.inr ⟨(bool_toNat_inj h).symm, h2⟩)
  · exact Or.inl (Or.inl h)

instance : IsTrans NumberRow listingOrder := by
  constructor
  intro a b c hab hbc
  rcases hab with h1 | ⟨e1, t1⟩
  · rcases hbc with h2 | ⟨e2, t2⟩
    · exact Or.inl (Nat.lt_trans h2 h1)
    · exact Or.inl (e2 ▸ h1)
  · rcases hbc with h2 | ⟨e2, t2⟩
    · exact Or.inl (e1 ▸ h2)
    · exact Or.inr ⟨e1.trans e2, Nat.le_trans t2 t1⟩

/-- `NumberManager.get_numbers_for_country` (lines 107-134): filter by
country, activity and (for non-PRO callers) non-premium, order premium
first then most-recently-added first, then apply
`LIMIT limit OFFSET (page - 1) * limit`. -/
def get_numbers_for_country (s : DBState) (country_id : Nat) (is_pro : Bool)
    (page limit : Nat) : List NumberRow :=
  let offset := (page - 1) * limit
  ((List.insertionSort listingOrder
      (s.numbers.filter (visibleNumber country_id is_pro))).drop offset).take
    limit

/-- `NumberManager.get_total_numbers_count` (lines 136-145):
`SELECT COUNT(id) FROM numbers WHERE country_id = ? AND is_active = 1` —
no premium filter and no dependence on the caller's tier. -/
def get_total_numbers_count (s : DBState) (country_id : Nat) : Nat :=
  (s.numbers.filter (fun r => r.country_id == country_id && r.is_active)).length

/-- `NUMBERS_PER_PAGE` (`handlers/number_handlers.py` line 40). -/
def NUMBERS_PER_PAGE : Nat := 10

/-- The page count computed by `numbers_list_handler` (line 100):
`(total_count + NUMBERS_PER_PAGE - 1) // NUMBERS_PER_PAGE`. -/
def numbers_list_total_pages (s : DBState) (country_id : Nat) : Nat :=
  (get_total_numbers_count s country_id + NUMBERS_PER_PAGE - 1) /
    NUMBERS_PER_PAGE

/-- The reservation actions that the handlers in
`handlers/number_handlers.py` can issue against the manager: initiate a
lease, poll for the code, cancel.  Users choose the arguments (`number_id`
arrives in the callback data), so any user may fire any action. -/
inductive ResAction where
  | init (user_id number_id : Nat) (api_request_id : String)
      (now next_id : Nat)
  | poll (user_id number_id : Nat) (now : Nat)
      (oracle : String → Option String)
  | cancel (user_id number_id : Nat)

/-- State transition of one handler-issued action. -/
def stepAction (s : DBState) : ResAction → DBState
  | .init u n api now next_id =>
    (initialize_number_request s u n api now next_id).2
  | .poll u n now oracle => (check_for_code s u n now oracle).state
  | .cancel u n => number_cancel_request_handler s u n

/-- States reachable from a fresh deployment (any administrated `numbers`
table, empty lease ledger) by handler-issued actions. -/
inductive Reachable : DBState → Prop where
  | base (numbers : List NumberRow) : Reachable ⟨numbers, []⟩
  | step {s : DBState} (h : Reachable s) (a : ResAction) : Reachable (stepAction s a)

/-- Number of PENDING leases recorded for a given resource. -/
def countPending (s : DBState) (number_id : Nat) : Nat :=
  (s.number_requests.filter (fun r =>
    r.number_id == number_id && r.status == "PENDING")).length

/-- Whether a PENDING lease exists for the (user, resource) pair. -/
def hasPending (s : DBState) (user_id number_id : Nat) : Bool :=
  s.number_requests.any (fun r =>
    r.user_id == user_id && r.number_id == number_id &&
    r.status == "PENDING")

/-- Whether some row of the resource with this id is active. -/
def numberActive (s : DBState) (number_id : Nat) : Bool :=
  s.numbers.any (fun r => r.id == number_id && r.is_active)

/-- Reachability when `cancel` is only issued by a user actually holding a
PENDING lease on the resource (the guarded discipline the spec assumes). -/
inductive GuardedReachable : DBState → Prop where
  | base (numbers : List NumberRow) : GuardedReachable ⟨numbers, []⟩
  | init {s : DBState} (h : GuardedReachable s) (u n : Nat) (api : String)
      (now next_id : Nat) :
      GuardedReachable (initialize_number_request s u n api now next_id).2
  | poll {s : DBState} (h : GuardedReachable s) (u n now : Nat)
      (oracle : String → Option String) :
      GuardedReachable (check_for_code s u n now oracle).state
  | cancel {s : DBState} (h : GuardedReachable s) (u n : Nat)
      (hp : hasPending s u n = true) :
      GuardedReachable (number_cancel_request_handler s u n)

/-- The invariant behind mutual exclusion: each resource has at most one
PENDING lease, and an active resource has none. -/
def MutexInv (s : DBState) : Prop :=
  ∀ m : Nat, countPending s m ≤ 1 ∧
    (numberActive s m = true → countPending s m = 0)

/-- A free, active resource (row of `numbers`) used in concrete runs. -/
def c1_number : NumberRow :=
  ⟨1, 1, "5550001", "Telegram", 0, false, 0, none, true, none⟩

/-- The state after: user 1 initiates number 1; user 2 (holding nothing)
cancels number 1; user 3 initiates number 1.  All three are handler-issued
actions. -/
def c1_breach_state : DBState :=
  stepAction (stepAction (stepAction ⟨[c1_number], []⟩
    (ResAction.init 1 1 "a" 0 1)) (ResAction.cancel 2 1))
    (ResAction.init 3 1 "b" 0 2)

/-- A resource already spent by a SUCCESS lease. -/
def c2_number : NumberRow :=
  ⟨1, 1, "5550001", "Telegram", 0, false, 1, some 0, false, some 1⟩

/-- A lease of user 1 on number 1 already finalized as SUCCESS. -/
def c2_request : RequestRow :=
  ⟨1, 1, 1, "a", "SUCCESS", 300, some "123456", 0⟩

/-- State in which the (1, 1) lease is already terminal. -/
def c2_state : DBState := ⟨[c2_number], [c2_request]⟩

/-- A held resource. -/
def c3_number : NumberRow :=
  ⟨1, 1, "5550001", "Telegram", 0, false, 0, some 0, false, some 1⟩

/-- A PENDING lease of user 1 on number 1 expiring at time 300. -/
def c3_request : RequestRow := ⟨1, 1, 1, "a", "PENDING", 300, none, 0⟩

/-- State with one PENDING lease created at time 0. -/
def c3_state : DBState := ⟨[c3_number], [c3_request]⟩

/-- An oracle that always has a code ready, to show the expired path
ignores it. -/
def c3_oracle : String → Option String := fun _ => some "123456"

/-- A resource that is inactive and was never leased. -/
def c4_number : NumberRow :=
  ⟨1, 1, "5550001", "Telegram", 0, false, 0, none, false, none⟩

/-- A state with no lease at all for (1, 1). -/
def c4_state : DBState := ⟨[c4_number], []⟩

/-- A spent resource held by a completed lease. -/
def c5_number : NumberRow :=
  ⟨1, 1, "5550001", "Telegram", 0, false, 1, some 0, false, some 1⟩

/-- A lease already terminal (SUCCESS). -/
def c5_done_request : RequestRow :=
  ⟨1, 1, 1, "a", "SUCCESS", 300, some "222222", 0⟩

/-- State whose only (1, 1) lease is terminal. -/
def c5_done_state : DBState := ⟨[c5_number], [c5_done_request]⟩

/-- A live PENDING lease that has not yet expired at time 100. -/
def c5_wait_request : RequestRow := ⟨1, 1, 1, "a", "PENDING", 300, none, 0⟩

/-- State with a live PENDING lease whose code has not arrived. -/
def c5_wait_state : DBState := ⟨[c5_number], [c5_wait_request]⟩

/-- An oracle with no code ready yet. -/
def c5_oracle : String → Option String := fun _ => none

/-- A held resource with zero prior uses. -/
def c6_number : NumberRow :=
  ⟨1, 1, "5550001", "Telegram", 0, false, 0, none, false, none⟩

/-- State used to evaluate the finalize side effects. -/
def c6_state : DBState := ⟨[c6_number], []⟩

/-- A free, active resource. -/
def c7_number : NumberRow :=
  ⟨1, 1, "5550001", "Telegram", 0, false, 0, none, true, none⟩

/-- Fresh state for the failure-injection run of initiate. -/
def c7_state : DBState := ⟨[c7_number], []⟩

/-- A premium, active resource in group (country) 1. -/
def c9_number : NumberRow :=
  ⟨1, 1, "5550001", "Telegram", 0, true, 0, none, true, none⟩

/-- State whose only resource is premium. -/
def c9_state : DBState := ⟨[c9_number], []⟩

lemma initialize_state_none (s : DBState) (u n : Nat) (api : String)
    (now i : Nat)
    (h : s.numbers.find? (fun r => r.id == n && r.is_active) = none) :
    initialize_number_request s u n api now i = (none, s) := by
  simp [initialize_number_request, h]

lemma initialize_state_some (s : DBState) (u n : Nat) (api : String)
    (now i : Nat) (nd : NumberRow)
    (h : s.numbers.find? (fun r => r.id == n && r.is_active) = some nd) :
    (initialize_number_request s u n api now i).2 =
      ⟨s.numbers.map (fun r =>
          if r.id == n then
            { r with is_active := false, last_used := some now,
                     last_used_by := some u }
          else r),
        s.number_requests ++
          [(⟨i, u, n, api, "PENDING", now + request_expiry_minutes * 60,
            none, now⟩ : RequestRow)]⟩ := by
  simp [initialize_number_request, h]

lemma finalize_requests_map (s : DBState) (u n : Nat) (st : String)
    (c : Option String) :
    (finalize_number_request s u n st c).number_requests
      = s.number_requests.map (fun r =>
          if r.user_id == u && r.number_id == n && r.status == "PENDING"
          then { r with status := st, code := c } else r) := by
  simp only [finalize_number_request]
  split
  · rfl
  · split <;> rfl

lemma finalize_numbers_release (s : DBState) (u n : Nat) (st : String)
    (c : Option String) (hst : (st == "EXPIRED" || st == "CANCELLED") = true) :
    (finalize_number_request s u n st c).numbers
      = s.numbers.map (fun r =>
          if r.id == n then { r with is_active := true } else r) := by
  simp only [finalize_number_request]
  rw [if_pos hst]

lemma finalize_numbers_success (s : DBState) (u n : Nat) (c : Option String) :
    (finalize_number_request s u n "SUCCESS" c).numbers
      = s.numbers.map (fun r =>
          if r.id == n then { r with times_used := r.times_used + 1 }
          else r) := by
  simp only [finalize_number_request]
  rw [if_neg (by decide), if_pos (by decide)]

lemma countPending_finalize (s : DBState) (u n : Nat) (st : String)
    (c : Option String) (m : Nat) (hst : (st == "PENDING") = false) :
    countPending (finalize_number_request s u n st c) m
      = (s.number_requests.filter (fun r =>
          (r.number_id == m && r.status == "PENDING") &&
          !(r.user_id == u && r.number_id == n))).length := by
  rw [countPending, finalize_requests_map, List.filter_map, List.length_map]
  refine congrArg List.length (List.filter_congr (fun r _ => ?_))
  show ((if r.user_id == u && r.number_id == n && r.status == "PENDING"
        then { r with status := st, code := c } else r).number_id == m &&
      (if r.user_id == u && r.number_id == n && r.status == "PENDING"
        then { r with status := st, code := c } else r).status == "PENDING")
    = ((r.number_id == m && r.status == "PENDING") &&
        !(r.user_id == u && r.number_id == n))
  cases hu : (r.user_id == u) <;> cases hn : (r.number_id == n) <;>
    cases hp : (r.status == "PENDING") <;> simp [hu, hn, hp, hst]

lemma length_filter_and_le {α : Type} (p q : α → Bool) :
    ∀ l : List α,
      (l.filter (fun r => p r && q r)).length ≤ (l.filter p).length := by
  intro l
  induction l with
  | nil => exact Nat.le_refl 0
  | cons a l ih =>
    simp only [List.filter_cons]
    cases hpa : p a <;> cases hqa : q a <;> simp [hpa, hqa] <;> omega

lemma countPending_finalize_le (s : DBState) (u n : Nat) (st : String)
    (c : Option String) (m : Nat) (hst : (st == "PENDING") = false) :
    countPending (finalize_number_request s u n st c) m ≤ countPending s m := by
  rw [countPending_finalize s u n st c m hst, countPending]
  exact length_filter_and_le _ _ _

lemma countPending_finalize_other (s : DBState) (u n : Nat) (st : String)
    (c : Option String) (m : Nat) (hst : (st == "PENDING") = false)
    (hm : m ≠ n) :
    countPending (finalize_number_request s u n st c) m = countPending s m := by
  rw [countPending_finalize s u n st c m hst, countPending]
  refine congrArg List.length (List.filter_congr (fun r _ => ?_))
  cases hrm : (r.number_id == m) <;> cases hp : (r.status == "PENDING")
  · simp [hrm, hp]
  · simp [hrm, hp]
  · simp [hrm, hp]
  · have hrn : (r.number_id == n) = false := by
      have : r.number_id = m := by simpa using hrm
      simp [this, hm]
    simp [hrm, hp, hrn]

lemma countPending_finalize_self (s : DBState) (u n : Nat) (st : String)
    (c : Option String) (hst : (st == "PENDING") = false)
    (hpend : hasPending s u n = true) (hle : countPending s n ≤ 1) :
    countPending (finalize_number_request s u n st c) n = 0 := by
  rw [countPending_finalize s u n st c n hst, List.length_eq_zero,
    List.filter_eq_nil_iff]
  intro r hr hkeep
  rw [Bool.and_eq_true, Bool.and_eq_true, Bool.not_eq_true'] at hkeep
  obtain ⟨⟨hrn, hrp⟩, hrbad⟩ := hkeep
  rw [hasPending, List.any_eq_true] at hpend
  obtain ⟨r2, hr2mem, hr2⟩ := hpend
  rw [Bool.and_eq_true, Bool.and_eq_true] at hr2
  obtain ⟨⟨h2u, h2n⟩, h2p⟩ := hr2
  have hrF : r ∈ s.number_requests.filter (fun x =>
      x.number_id == n && x.status == "PENDING") :=
    List.mem_filter.mpr ⟨hr, by rw [hrn, hrp]; rfl⟩
  have hr2F : r2 ∈ s.number_requests.filter (fun x =>
      x.number_id == n && x.status == "PENDING") :=
    List.mem_filter.mpr ⟨hr2mem, by rw [h2n, h2p]; rfl⟩
  rw [countPending] at hle
  have hne : r ≠ r2 := by
    intro he
    rw [he, h2u] at hrbad
    have : (r2.number_id == n) = false := by
      simpa using hrbad
    rw [h2n] at this
    cases this
  cases hF : s.number_requests.filter (fun x =>
      x.number_id == n && x.status == "PENDING") with
  | nil => rw [hF] at hrF; cases hrF
  | cons b t =>
    rw [hF] at hle hrF hr2F
    have ht : t = [] := by
      rw [List.length_cons] at hle
      exact List.length_eq_zero.mp (Nat.le_zero.mp (Nat.le_of_succ_le_succ hle))
    rw [ht] at hrF hr2F
    have h1 : r = b := by simpa using hrF
    have h2 : r2 = b := by simpa using hr2F
    exact hne (h1.trans h2.symm)

lemma hasPending_of_findPending (s : DBState) (u n : Nat) (r : RequestRow)
    (h : findPendingRequest s u n = some r) : hasPending s u n = true := by
  rw [findPendingRequest] at h
  have hmem : r ∈ List.insertionSort requestOrder
      (s.number_requests.filter (fun x =>
        x.user_id == u && x.number_id == n && x.status == "PENDING")) :=
    List.mem_of_mem_head? (by rw [h]; exact rfl)
  rw [List.mem_insertionSort, List.mem_filter] at hmem
  rw [hasPending, List.any_eq_true]
  exact ⟨r, hmem.1, hmem.2⟩

lemma findPending_eq_none (s : DBState) (u n : Nat)
    (h : hasPending s u n = false) : findPendingRequest s u n = none := by
  rw [findPendingRequest, List.head?_eq_none_iff]
  rw [hasPending, List.any_eq_false] at h
  have hnil : s.number_requests.filter (fun x =>
      x.user_id == u && x.number_id == n && x.status == "PENDING") = [] :=
    List.filter_eq_nil_iff.mpr h
  rw [hnil]
  rfl

lemma numberActive_map_setActive (l : List NumberRow) (n m : Nat) (hmn : m ≠ n) :
    ((l.map (fun r => if r.id == n then { r with is_active := true } else r)).any
        (fun r => r.id == m && r.is_active))
      = l.any (fun r => r.id == m && r.is_active) := by
  rw [List.any_map]
  refine congrArg _ (funext fun r => ?_)
  show ((if r.id == n then { r with is_active := true } else r).id == m &&
      (if r.id == n then { r with is_active := true } else r).is_active)
    = (r.id == m && r.is_active)
  cases hn : (r.id == n)
  · rw [if_neg (by simp [hn])]
  · rw [if_pos (by simp [hn])]
    have hrn : r.id = n := by simpa using hn
    have hnm : ¬ n = m := fun h => hmn h.symm
    have hm2 : (r.id == m) = false := by simp [hrn, hnm]
    simp [hm2]

lemma numberActive_map_incUse (l : List NumberRow) (n m : Nat) :
    ((l.map (fun r =>
        if r.id == n then { r with times_used := r.times_used + 1 } else r)).any
        (fun r => r.id == m && r.is_active))
      = l.any (fun r => r.id == m && r.is_active) := by
  rw [List.any_map]
  refine congrArg _ (funext fun r => ?_)
  show ((if r.id == n then { r with times_used := r.times_used + 1 }
        else r).id == m &&
      (if r.id == n then { r with times_used := r.times_used + 1 }
        else r).is_active)
    = (r.id == m && r.is_active)
  cases hn : (r.id == n)
  · rw [if_neg (by simp [hn])]
  · rw [if_pos (by simp [hn])]

lemma numberActive_map_deactivate_self (l : List NumberRow) (u now n : Nat) :
    ((l.map (fun r =>
        if r.id == n then
          { r with is_active := false, last_used := some now,
                   last_used_by := some u }
        else r)).any (fun r => r.id == n && r.is_active)) = false := by
  rw [List.any_map, List.any_eq_false]
  intro r _
  show ¬ ((if r.id == n then
      { r with is_active := false, last_used := some now,
               last_used_by := some u } else r).id == n &&
    (if r.id == n then
      { r with is_active := false, last_used := some now,
               last_used_by := some u } else r).is_active) = true
  cases hn : (r.id == n)
  · rw [if_neg (by simp [hn])]
    simp [hn]
  · rw [if_pos (by simp [hn])]
    simp

lemma numberActive_map_deactivate_other (l : List NumberRow) (u now n m : Nat)
    (hmn : m ≠ n) :
    ((l.map (fun r =>
        if r.id == n then
          { r with is_active := false, last_used := some now,
                   last_used_by := some u }
        else r)).any (fun r => r.id == m && r.is_active))
      = l.any (fun r => r.id == m && r.is_active) := by
  rw [List.any_map]
  refine congrArg _ (funext fun r => ?_)
  show ((if r.id == n then
      { r with is_active := false, last_used := some now,
               last_used_by := some u } else r).id == m &&
    (if r.id == n then
      { r with is_active := false, last_used := some now,
               last_used_by := some u } else r).is_active)
    = (r.id == m && r.is_active)
  cases hn : (r.id == n)
  · rw [if_neg (by simp [hn])]
  · rw [if_pos (by simp [hn])]
    have hrn : r.id = n := by simpa using hn
    have hnm : ¬ n = m := fun h => hmn h.symm
    have hm2 : (r.id == m) = false := by simp [hrn, hnm]
    simp [hm2]

lemma countPending_init_self (s : DBState) (u n : Nat) (api : String)
    (now i : Nat) (nd : NumberRow)
    (h : s.numbers.find? (fun r => r.id == n && r.is_active) = some nd) :
    countPending (initialize_number_request s u n api now i).2 n
      = countPending s n + 1 := by
  rw [initialize_state_some s u n api now i nd h]
  rw [countPending, countPending, List.filter_append, List.length_append]
  simp

lemma countPending_init_other (s : DBState) (u n : Nat) (api : String)
    (now i : Nat) (nd : NumberRow) (m : Nat)
    (h : s.numbers.find? (fun r => r.id == n && r.is_active) = some nd)
    (hm : m ≠ n) :
    countPending (initialize_number_request s u n api now i).2 m
      = countPending s m := by
  rw [initialize_state_some s u n api now i nd h]
  rw [countPending, countPending, List.filter_append, List.length_append]
  have hnm : (n == m) = false := by
    simp
    exact fun hh => hm hh.symm
  simp [hnm]

lemma numberActive_init_self (s : DBState) (u n : Nat) (api : String)
    (now i : Nat) (nd : NumberRow)
    (h : s.numbers.find? (fun r => r.id == n && r.is_active) = some nd) :
    numberActive (initialize_number_request s u n api now i).2 n = false := by
  rw [initialize_state_some s u n api now i nd h, numberActive]
  exact numberActive_map_deactivate_self s.numbers u now n

lemma numberActive_init_other (s : DBState) (u n : Nat) (api : String)
    (now i : Nat) (nd : NumberRow) (m : Nat)
    (h : s.numbers.find? (fun r => r.id == n && r.is_active) = some nd)
    (hm : m ≠ n) :
    numberActive (initialize_number_request s u n api now i).2 m
      = numberActive s m := by
  rw [initialize_state_some s u n api now i nd h, numberActive, numberActive]
  exact numberActive_map_deactivate_other s.numbers u now n m hm

lemma mutexInv_init (s : DBState) (u n : Nat) (api : String) (now i : Nat)
    (hInv : MutexInv s) :
    MutexInv (initialize_number_request s u n api now i).2 := by
  cases hfind : s.numbers.find? (fun r => r.id == n && r.is_active) with
  | none =>
    rw [initialize_state_none s u n api now i hfind]
    exact hInv
  | some nd =>
    intro m
    by_cases hm : m = n
    · subst hm
      have hnd := List.find?_some hfind
      have hact : numberActive s m = true := by
        rw [numberActive, List.any_eq_true]
        exact ⟨nd, List.mem_of_find?_eq_some hfind, hnd⟩
      have h0 : countPending s m = 0 := (hInv m).2 hact
      constructor
      · rw [countPending_init_self s u m api now i nd hfind, h0]
      · intro hact2
        rw [numberActive_init_self s u m api now i nd hfind] at hact2
        cases hact2
    · constructor
      · rw [countPending_init_other s u n api now i nd m hfind hm]
        exact (hInv m).1
      · intro hact
        rw [numberActive_init_other s u n api now i nd m hfind hm] at hact
        rw [countPending_init_other s u n api now i nd m hfind hm]
        exact (hInv m).2 hact

lemma mutexInv_finalize_release (s : DBState) (u n : Nat) (st : String)
    (c : Option String) (hst2 : (st == "EXPIRED" || st == "CANCELLED") = true)
    (hstp : (st == "PENDING") = false) (hp : hasPending s u n = true)
    (hInv : MutexInv s) :
    MutexInv (finalize_number_request s u n st c) := by
  intro m
  by_cases hm : m = n
  · subst hm
    constructor
    · rw [countPending_finalize_self s u m st c hstp hp (hInv m).1]
      exact Nat.zero_le 1
    · intro _
      exact countPending_finalize_self s u m st c hstp hp (hInv m).1
  · constructor
    · rw [countPending_finalize_other s u n st c m hstp hm]
      exact (hInv m).1
    · intro hact
      have heq : numberActive (finalize_number_request s u n st c) m
          = numberActive s m := by
        rw [numberActive, numberActive, finalize_numbers_release s u n st c hst2]
        exact numberActive_map_setActive s.numbers n m hm
      rw [heq] at hact
      rw [countPending_finalize_other s u n st c m hstp hm]
      exact (hInv m).2 hact

lemma mutexInv_finalize_success (s : DBState) (u n : Nat) (c : Option String)
    (hInv : MutexInv s) :
    MutexInv (finalize_number_request s u n "SUCCESS" c) := by
  intro m
  have heq : numberActive (finalize_number_request s u n "SUCCESS" c) m
      = numberActive s m := by
    rw [numberActive, numberActive, finalize_numbers_success s u n c]
    exact numberActive_map_incUse s.numbers n m
  constructor
  · exact Nat.le_trans
      (countPending_finalize_le s u n "SUCCESS" c m (by decide)) (hInv m).1
  · intro hact
    rw [heq] at hact
    have h0 := (hInv m).2 hact
    have hle := countPending_finalize_le s u n "SUCCESS" c m (by decide)
    omega

lemma check_for_code_none (s : DBState) (u n now : Nat)
    (oracle : String → Option String)
    (h : findPendingRequest s u n = none) :
    check_for_code s u n now oracle = ⟨none, s, false⟩ := by
  unfold check_for_code
  rw [h]

lemma check_for_code_some (s : DBState) (u n now : Nat)
    (oracle : String → Option String) (req : RequestRow)
    (h : findPendingRequest s u n = some req) :
    check_for_code s u n now oracle =
      if req.expires_at < now then
        ⟨some "EXPIRED", finalize_number_request s u n "EXPIRED" none, false⟩
      else
        match oracle req.api_request_id with
        | some code =>
          ⟨some code, finalize_number_request s u n "SUCCESS" (some code),
           true⟩
        | none => ⟨none, s, true⟩ := by
  unfold check_for_code
  rw [h]

lemma mutexInv_poll (s : DBState) (u n now : Nat)
    (oracle : String → Option String) (hInv : MutexInv s) :
    MutexInv (check_for_code s u n now oracle).state := by
  cases hfind : findPendingRequest s u n with
  | none =>
    rw [check_for_code_none s u n now oracle hfind]
    exact hInv
  | some req =>
    have hp := hasPending_of_findPending s u n req hfind
    rw [check_for_code_some s u n now oracle req hfind]
    by_cases hexp : req.expires_at < now
    · rw [if_pos hexp]
      exact mutexInv_finalize_release s u n "EXPIRED" none (by decide)
        (by decide) hp hInv
    · rw [if_neg hexp]
      cases horacle : oracle req.api_request_id with
      | some code => exact mutexInv_finalize_success s u n (some code) hInv
      | none => exact hInv

lemma guardedReachable_mutexInv (s : DBState) (h : GuardedReachable s) :
    MutexInv s := by
  induction h with
  | base numbers =>
    intro m
    exact ⟨by simp [countPending], fun _ => by simp [countPending]⟩
  | init h u n api now next_id ih => exact mutexInv_init _ u n api now next_id ih
  | poll h u n now oracle ih => exact mutexInv_poll _ u n now oracle ih
  | cancel h u n hp ih =>
    exact mutexInv_finalize_release _ u n "CANCELLED" none (by decide)
      (by decide) hp ih

lemma digitChar_isDigit (n : Nat) (h : n < 10) :
    (Nat.digitChar n).isDigit = true := by
  interval_cases n <;> decide

lemma toDigitsCore_digits :
    ∀ (fuel n : Nat) (acc : List Char),
      (∀ ch ∈ acc, ch.isDigit = true) →
      ∀ ch ∈ Nat.toDigitsCore 10 fuel n acc, ch.isDigit = true := by
  intro fuel
  induction fuel with
  | zero =>
    intro n acc hacc ch hch
    exact hacc ch hch
  | succ fuel ih =>
    intro n acc hacc ch hch
    unfold Nat.toDigitsCore at hch
    by_cases h0 : n / 10 = 0
    · rw [if_pos h0] at hch
      rcases List.mem_cons.mp hch with rfl | hmem
      · exact digitChar_isDigit _ (Nat.mod_lt _ (by decide))
      · exact hacc _ hmem
    · rw [if_neg h0] at hch
      refine ih (n / 10) _ ?_ ch hch
      intro c hc
      rcases List.mem_cons.mp hc with rfl | hc2
      · exact digitChar_isDigit _ (Nat.mod_lt _ (by decide))
      · exact hacc _ hc2

lemma repr_ne_EXPIRED (n : Nat) : Nat.repr n ≠ "EXPIRED" := by
  intro h
  have hd := toDigitsCore_digits (n + 1) n [] (by intro c hc; cases hc)
  have h2 : (Nat.toDigits 10 n).asString = "EXPIRED" := h
  have hdata : Nat.toDigits 10 n = "EXPIRED".data := by
    calc Nat.toDigits 10 n = (Nat.toDigits 10 n).asString.data := rfl
    _ = "EXPIRED".data := by rw [h2]
  have hE : 'E' ∈ Nat.toDigitsCore 10 (n + 1) n [] := by
    show 'E' ∈ Nat.toDigits 10 n
    rw [hdata]
    decide
  exact absurd (hd 'E' hE) (by decide)

lemma finalize_requests_id (s : DBState) (u n : Nat) (st : String)
    (c : Option String) (h : hasPending s u n = false) :
    (finalize_number_request s u n st c).number_requests
      = s.number_requests := by
  rw [finalize_requests_map]
  rw [hasPending, List.any_eq_false] at h
  have : ∀ r ∈ s.number_requests,
      (if r.user_id == u && r.number_id == n && r.status == "PENDING"
        then { r with status := st, code := c } else r) = r := by
    intro r hr
    rw [if_neg]
    intro hcontra
    exact h r hr hcontra
  rw [List.map_congr_left this, List.map_id']

/-- C1 (counterexample): the mutual-exclusion invariant fails on a
reachable state.  From a fresh state with one active number, the
handler-issued trace "user 1 initiates number 1; user 2 cancels number 1
(holding no lease); user 3 initiates number 1" is reachable and leaves
number 1 with two PENDING leases: the no-lease cancel still re-activated
the number, so the second initiate succeeded while the first lease was
still PENDING. -/
theorem c1_counterexample :
    Reachable c1_breach_state ∧ countPending c1_breach_state 1 = 2 :=
  ⟨Reachable.step (Reachable.step (Reachable.step
      (Reachable.base [c1_number]) (ResAction.init 1 1 "a" 0 1))
      (ResAction.cancel 2 1)) (ResAction.init 3 1 "b" 0 2),
   by decide⟩

/-- C1 (amended): provided `cancel` is only issued by a user actually
holding a PENDING lease on the resource, every reachable state has at most
one PENDING lease per resource; and `initiate` on a resource that does not
exist or is not active returns `None` (ResourceUnavailable) without
touching the state, so it never creates a second lease. -/
theorem c1_amended_mutual_exclusion :
    (∀ s : DBState, GuardedReachable s → ∀ m : Nat, countPending s m ≤ 1) ∧
    (∀ (s : DBState) (u n : Nat) (api : String) (now i : Nat),
      s.numbers.find? (fun r => r.id == n && r.is_active) = none →
      initialize_number_request s u n api now i = (none, s)) :=
  ⟨fun s h m => (guardedReachable_mutexInv s h m).1,
   fun s u n api now i h => initialize_state_none s u n api now i h⟩

/-- C1 (witness): the amended theorem applied at the empty state and a
concrete failing initiate. -/
theorem c1_amended_mutual_exclusion_witness :
    countPending ⟨[], []⟩ 0 ≤ 1 ∧
    initialize_number_request ⟨[], []⟩ 1 1 "a" 0 1 = (none, ⟨[], []⟩) :=
  ⟨c1_amended_mutual_exclusion.1 ⟨[], []⟩ (GuardedReachable.base []) 0,
   c1_amended_mutual_exclusion.2 ⟨[], []⟩ 1 1 "a" 0 1 rfl⟩

/-- C2 (counterexample): finalize of an already-terminal lease is NOT a
complete no-op.  On a state whose (1, 1) lease is already SUCCESS, a second
`finalize(SUCCESS)` leaves the lease row unchanged (only the first status
persists) yet increments the resource usage counter from 1 to 2, and a
second `finalize(EXPIRED)` flips the availability flag from held to
available — the resource mutation of the second call is applied. -/
theorem c2_counterexample :
    (finalize_number_request c2_state 1 1 "SUCCESS"
        (some "654321")).number_requests = c2_state.number_requests ∧
    (finalize_number_request c2_state 1 1 "SUCCESS"
        (some "654321")).numbers.map (fun r => r.times_used) = [2] ∧
    c2_state.numbers.map (fun r => r.times_used) = [1] ∧
    (finalize_number_request c2_state 1 1 "EXPIRED" none).numbers.map
        (fun r => r.is_active) = [true] ∧
    c2_state.numbers.map (fun r => r.is_active) = [false] := by
  decide

/-- C2 (amended): finalize is idempotent on the lease ledger only — when no
PENDING lease exists for the pair, the conditional update leaves every
lease row unchanged, so only the first terminal status persists; but the
second call still applies its resource mutation: EXPIRED/CANCELLED re-set
the availability flag, SUCCESS increments the usage counter again. -/
theorem c2_amended_finalize_ledger_only (s : DBState) (u n : Nat)
    (st : String) (c : Option String) (h : hasPending s u n = false) :
    (finalize_number_request s u n st c).number_requests
        = s.number_requests ∧
    ((st == "EXPIRED" || st == "CANCELLED") = true →
      (finalize_number_request s u n st c).numbers
        = s.numbers.map (fun r =>
            if r.id == n then { r with is_active := true } else r)) ∧
    (st = "SUCCESS" →
      (finalize_number_request s u n st c).numbers
        = s.numbers.map (fun r =>
            if r.id == n then { r with times_used := r.times_used + 1 }
            else r)) := by
  refine ⟨finalize_requests_id s u n st c h, ?_, ?_⟩
  · intro hst
    exact finalize_numbers_release s u n st c hst
  · intro hst
    subst hst
    exact finalize_numbers_success s u n c

/-- C2 (witness): the amended theorem applied at the terminal-lease
state. -/
theorem c2_amended_witness :
    (finalize_number_request c2_state 1 1 "CANCELLED" none).number_requests
      = c2_state.number_requests :=
  (c2_amended_finalize_ledger_only c2_state 1 1 "CANCELLED" none
    (by decide)).1

/-- C3 (confirmed): when the PENDING lease read by `check_for_code` has
`expires_at < now`, the poll returns `"EXPIRED"`, never consults the
Verification Oracle, rewrites every PENDING lease row of the pair to
EXPIRED, and re-activates every row of the resource. -/
theorem c3_expired_poll_reports_expired (s : DBState) (u n now : Nat)
    (oracle : String → Option String) (req : RequestRow)
    (hreq : findPendingRequest s u n = some req)
    (hexp : req.expires_at < now) :
    (check_for_code s u n now oracle).result = some "EXPIRED" ∧
    (check_for_code s u n now oracle).consulted = false ∧
    (check_for_code s u n now oracle).state.number_requests
      = s.number_requests.map (fun r =>
          if r.user_id == u && r.number_id == n && r.status == "PENDING"
          then { r with status := "EXPIRED", code := none } else r) ∧
    ((check_for_code s u n now oracle).state.numbers.all
      (fun r => !(r.id == n) || r.is_active)) = true := by
  rw [check_for_code_some s u n now oracle req hreq, if_pos hexp]
  refine ⟨rfl, rfl, finalize_requests_map s u n "EXPIRED" none, ?_⟩
  show ((finalize_number_request s u n "EXPIRED" none).numbers.all
    (fun r => !(r.id == n) || r.is_active)) = true
  rw [finalize_numbers_release s u n "EXPIRED" none (by decide),
    List.all_map, List.all_eq_true]
  intro r _
  show (!(if r.id == n then { r with is_active := true } else r).id == n ||
    (if r.id == n then { r with is_active := true } else r).is_active) = true
  cases hn : (r.id == n)
  · rw [if_neg (by simp [hn])]
    simp [hn]
  · rw [if_pos (by simp [hn])]
    simp [hn]

/-- C3 (witness): the theorem applied at a concrete state with a lease
expiring at 300 polled at time 301 against an oracle that has a code
ready. -/
theorem c3_witness :
    (check_for_code c3_state 1 1 301 c3_oracle).result = some "EXPIRED" ∧
    (check_for_code c3_state 1 1 301 c3_oracle).consulted = false := by
  have h := c3_expired_poll_reports_expired c3_state 1 1 301 c3_oracle
    c3_request (by decide) (by decide)
  exact ⟨h.1, h.2.1⟩

/-- C4 (counterexample): cancelling when no PENDING lease exists is not a
failing no-op.  On a state whose number 1 is inactive and whose lease
ledger is empty (never leased), the cancel handler reports success (it has
no failure path at all) and mutates state: the resource's availability
flag flips from held to available. -/
theorem c4_counterexample :
    number_cancel_request_handler c4_state 1 1 ≠ c4_state ∧
    (number_cancel_request_handler c4_state 1 1).numbers.map
        (fun r => r.is_active) = [true] ∧
    c4_state.numbers.map (fun r => r.is_active) = [false] ∧
    c4_state.number_requests = [] := by
  decide

/-- C4 (amended): cancel on a PENDING lease does transition it to
CANCELLED and restore the resource's availability; but cancel when no
PENDING lease exists does not fail with NoActiveLease — the handler leaves
the lease ledger untouched and still forces the resource's availability
flag to available (a state mutation). -/
theorem c4_amended_cancel_behavior (s : DBState) (u n : Nat) :
    (number_cancel_request_handler s u n).number_requests
      = s.number_requests.map (fun r =>
          if r.user_id == u && r.number_id == n && r.status == "PENDING"
          then { r with status := "CANCELLED", code := none } else r) ∧
    ((number_cancel_request_handler s u n).numbers.all
        (fun r => !(r.id == n) || r.is_active)) = true ∧
    (hasPending s u n = false →
      (number_cancel_request_handler s u n).number_requests
          = s.number_requests ∧
      (number_cancel_request_handler s u n).numbers
        = s.numbers.map (fun r =>
            if r.id == n then { r with is_active := true } else r)) := by
  refine ⟨finalize_requests_map s u n "CANCELLED" none, ?_, fun h =>
    ⟨finalize_requests_id s u n "CANCELLED" none h,
     finalize_numbers_release s u n "CANCELLED" none (by decide)⟩⟩
  show ((finalize_number_request s u n "CANCELLED" none).numbers.all
    (fun r => !(r.id == n) || r.is_active)) = true
  rw [finalize_numbers_release s u n "CANCELLED" none (by decide),
    List.all_map, List.all_eq_true]
  intro r _
  show (!(if r.id == n then { r with is_active := true } else r).id == n ||
    (if r.id == n then { r with is_active := true } else r).is_active) = true
  cases hn : (r.id == n)
  · rw [if_neg (by simp [hn])]
    simp [hn]
  · rw [if_pos (by simp [hn])]
    simp [hn]

/-- C4 (witness): the amended theorem applied at the never-leased
state. -/
theorem c4_amended_witness :
    (number_cancel_request_handler c4_state 1 1).number_requests
      = c4_state.number_requests :=
  ((c4_amended_cancel_behavior c4_state 1 1).2.2 (by decide)).1

/-- C5 (counterexample): polling with no PENDING lease does not fail with a
typed NoActiveLease outcome.  On a state whose only (1, 1) lease is already
SUCCESS, the poll handler returns the very same "code not ready yet"
outcome (and unchanged state) that it returns on a state with a live
PENDING lease whose code has not arrived — the two situations are
indistinguishable to the caller, and the terminal outcome is not
re-reported. -/
theorem c5_counterexample :
    number_check_code_handler c5_done_state 1 1 100 c5_oracle
      = (CheckOutcome.notReadyMessage, c5_done_state) ∧
    number_check_code_handler c5_wait_state 1 1 100 c5_oracle
      = (CheckOutcome.notReadyMessage, c5_wait_state) := by
  decide

/-- C5 (amended): polling when no PENDING lease exists for the pair
returns the "code not ready yet" outcome — the same outcome as a live
pending lease — with the state unchanged, so a second poll after a
terminal state re-mutates nothing and never increments the usage counter a
second time, but it does not report the terminal outcome either. -/
theorem c5_amended_poll_without_lease (s : DBState) (u n now : Nat)
    (oracle : String → Option String) (h : hasPending s u n = false) :
    number_check_code_handler s u n now oracle
      = (CheckOutcome.notReadyMessage, s) := by
  unfold number_check_code_handler
  rw [check_for_code_none s u n now oracle (findPending_eq_none s u n h)]

/-- C5 (witness): the amended theorem applied at the terminal-lease state
for a different caller. -/
theorem c5_amended_witness :
    number_check_code_handler c5_done_state 2 1 100 c5_oracle
      = (CheckOutcome.notReadyMessage, c5_done_state) :=
  c5_amended_poll_without_lease c5_done_state 2 1 100 c5_oracle (by decide)

/-- C6 (confirmed): the side effects of finalize depend on the outcome.
On SUCCESS every row's availability flag is untouched (the resource stays
held, the spent number is not returned to the pool) and the target
resource's usage counter is incremented; on EXPIRED or CANCELLED the
target resource's availability flag is set back to available and nothing
else of the row changes. -/
theorem c6_finalize_side_effects (s : DBState) (u n : Nat)
    (c : Option String) :
    (∀ i : Nat,
      ((finalize_number_request s u n "SUCCESS" c).numbers[i]?).map
          (fun r => r.is_active)
        = (s.numbers[i]?).map (fun r => r.is_active)) ∧
    (∀ i : Nat, ∀ r : NumberRow, s.numbers[i]? = some r →
      ((finalize_number_request s u n "SUCCESS" c).numbers[i]?).map
          (fun r => r.times_used)
        = some (if r.id = n then r.times_used + 1 else r.times_used)) ∧
    (∀ st : String, st = "EXPIRED" ∨ st = "CANCELLED" →
      ∀ i : Nat, ∀ r : NumberRow, s.numbers[i]? = some r →
        (finalize_number_request s u n st c).numbers[i]?
          = some (if r.id = n then { r with is_active := true } else r)) := by
  refine ⟨?_, ?_, ?_⟩
  · intro i
    rw [finalize_numbers_success s u n c, List.getElem?_map]
    cases s.numbers[i]? with
    | none => rfl
    | some r =>
      show some ((if r.id == n then
          { r with times_used := r.times_used + 1 } else r).is_active)
        = some r.is_active
      cases hn : (r.id == n)
      · rw [if_neg (by simp [hn])]
      · rw [if_pos (by simp [hn])]
  · intro i r hr
    rw [finalize_numbers_success s u n c, List.getElem?_map, hr]
    show some ((if r.id == n then
        { r with times_used := r.times_used + 1 } else r).times_used)
      = some (if r.id = n then r.times_used + 1 else r.times_used)
    cases hn : (r.id == n)
    · have hne : ¬ r.id = n := by simpa using hn
      simp [hn, hne]
    · have he : r.id = n := by simpa using hn
      simp [hn, he]
  · intro st hst i r hr
    have hst2 : (st == "EXPIRED" || st == "CANCELLED") = true := by
      rcases hst with rfl | rfl <;> decide
    rw [finalize_numbers_release s u n st c hst2, List.getElem?_map, hr]
    show some (if r.id == n then { r with is_active := true } else r)
      = some (if r.id = n then { r with is_active := true } else r)
    cases hn : (r.id == n)
    · have hne : ¬ r.id = n := by simpa using hn
      simp [hn, hne]
    · have he : r.id = n := by simpa using hn
      simp [hn, he]

/-- C6 (witness): the theorem applied at a concrete held resource with
zero uses. -/
theorem c6_witness :
    ((finalize_number_request c6_state 1 1 "SUCCESS" none).numbers[0]?).map
        (fun r => r.times_used) = some 1 := by
  have h := (c6_finalize_side_effects c6_state 1 1 none).2.1 0 c6_number rfl
  simpa using h

/-- C7 (counterexample): initiate is not atomic as a unit.  Each statement
commits separately (`Database.execute` commits after every statement), so
with a persistence failure injected between the lease INSERT and the
resource UPDATE on a fresh state, the operation reports failure (`None`)
yet the PENDING lease row stays committed while the resource's
availability flag was never flipped — partial state remains. -/
theorem c7_counterexample :
    (initialize_number_request_with_failure c7_state 1 1 "api" 0 1
        (some InitFailure.updateFailure)).1 = none ∧
    (initialize_number_request_with_failure c7_state 1 1 "api" 0 1
        (some InitFailure.updateFailure)).2 ≠ c7_state ∧
    ((initialize_number_request_with_failure c7_state 1 1 "api" 0 1
        (some InitFailure.updateFailure)).2.number_requests.map
        (fun r => r.status)) = ["PENDING"] ∧
    ((initialize_number_request_with_failure c7_state 1 1 "api" 0 1
        (some InitFailure.updateFailure)).2.numbers.map
        (fun r => r.is_active)) = [true] := by
  decide

/-- C7 (amended): a failure before the lease INSERT leaves no state behind,
and the failure-free run coincides with the normal initiate (correlation
id, expiry = now + 5 minutes, PENDING insert, availability flip, stamps);
but a failure between the INSERT and the numbers UPDATE returns failure
while the PENDING lease row (with expiry now + 5 minutes) remains
committed and the resource row is untouched — the two mutations do not
commit or roll back as a unit. -/
theorem c7_amended_initiate_not_atomic (s : DBState) (u n : Nat)
    (api : String) (now i : Nat) :
    (initialize_number_request_with_failure s u n api now i
        (some InitFailure.insertFailure) = (none, s)) ∧
    (initialize_number_request_with_failure s u n api now i none
        = initialize_number_request s u n api now i) ∧
    (∀ nd : NumberRow,
      s.numbers.find? (fun r => r.id == n && r.is_active) = some nd →
      (initialize_number_request_with_failure s u n api now i
          (some InitFailure.updateFailure)).1 = none ∧
      (initialize_number_request_with_failure s u n api now i
          (some InitFailure.updateFailure)).2.numbers = s.numbers ∧
      (initialize_number_request_with_failure s u n api now i
          (some InitFailure.updateFailure)).2.number_requests
        = s.number_requests ++
          [(⟨i, u, n, api, "PENDING", now + request_expiry_minutes * 60,
            none, now⟩ : RequestRow)]) := by
  refine ⟨?_, ?_, ?_⟩
  · cases h : s.numbers.find? (fun r => r.id == n && r.is_active) <;>
      simp [initialize_number_request_with_failure, h,
        initialize_number_request]
  · cases h : s.numbers.find? (fun r => r.id == n && r.is_active) <;>
      simp [initialize_number_request_with_failure, h,
        initialize_number_request]
  · intro nd h
    refine ⟨?_, ?_, ?_⟩ <;> simp [initialize_number_request_with_failure, h]

/-- C7 (witness): the amended theorem applied at the fresh one-number
state. -/
theorem c7_amended_witness :
    (initialize_number_request_with_failure c7_state 1 1 "api" 0 2
        (some InitFailure.updateFailure)).2.numbers = c7_state.numbers :=
  ((c7_amended_initiate_not_atomic c7_state 1 1 "api" 0 2).2.2 c7_number
    rfl).2.1

/-- C8 (confirmed): for every group, tier, page and page size, the listing
is a window of a sorted permutation of the tier-visible active resources of
the group — ordered premium-first then most-recently-added-first — with
offset `(page - 1) * pageSize`; the returned page itself is sorted in that
order; a standard (non-PRO) caller only ever receives non-premium rows;
and the PRO filter imposes no premium restriction at all. -/
theorem c8_listing_ordered_and_tier_filtered (s : DBState) (c : Nat)
    (is_pro : Bool) (page limit : Nat) :
    ∃ l : List NumberRow,
      l.Perm (s.numbers.filter (visibleNumber c is_pro)) ∧
      List.Sorted listingOrder l ∧
      get_numbers_for_country s c is_pro page limit
        = (l.drop ((page - 1) * limit)).take limit ∧
      List.Sorted listingOrder
        (get_numbers_for_country s c is_pro page limit) ∧
      (get_numbers_for_country s c false page limit).all
        (fun r => !r.is_premium) = true ∧
      s.numbers.filter (visibleNumber c true)
        = s.numbers.filter (fun r => r.country_id == c && r.is_active) := by
  refine ⟨List.insertionSort listingOrder
      (s.numbers.filter (visibleNumber c is_pro)),
    List.perm_insertionSort _ _, List.sorted_insertionSort _ _, rfl,
    ?_, ?_, ?_⟩
  · have hs : List.Sorted listingOrder (List.insertionSort listingOrder
        (s.numbers.filter (visibleNumber c is_pro))) :=
      List.sorted_insertionSort _ _
    exact List.Pairwise.sublist
      ((List.take_sublist _ _).trans (List.drop_sublist _ _)) hs
  · rw [List.all_eq_true]
    intro r hr
    have hmem : r ∈ List.insertionSort listingOrder
        (s.numbers.filter (visibleNumber c false)) :=
      ((List.take_sublist _ _).trans (List.drop_sublist _ _)).subset hr
    rw [List.mem_insertionSort, List.mem_filter] at hmem
    have hv := hmem.2
    rw [visibleNumber] at hv
    rw [Bool.and_eq_true, Bool.and_eq_true] at hv
    simpa using hv.2
  · refine List.filter_congr (fun r _ => ?_)
    rw [visibleNumber]
    cases r.is_premium <;> cases (r.country_id == c) <;>
      cases r.is_active <;> rfl

/-- C9 (confirmed, implicit): `get_total_numbers_count` counts every
active resource of the group — premium included — and takes no visibility
tier at all; hence on a group holding only a premium resource the page
count computed by the listing handler is 1 while the listing for a
standard (non-PRO) caller is empty on every page: the total used for
pagination exceeds what that caller can ever be shown. -/
theorem c9_count_ignores_tier :
    (∀ (s : DBState) (c : Nat),
      get_total_numbers_count s c
        = (s.numbers.filter
            (fun r => r.country_id == c && r.is_active)).length) ∧
    get_total_numbers_count c9_state 1 = 1 ∧
    numbers_list_total_pages c9_state 1 = 1 ∧
    (∀ page limit : Nat,
      get_numbers_for_country c9_state 1 false page limit = []) := by
  refine ⟨fun s c => rfl, by decide, by decide, fun page limit => ?_⟩
  have h : c9_state.numbers.filter (visibleNumber 1 false) = [] := rfl
  simp only [get_numbers_for_country, h]
  simp

/-- C10 (confirmed, implicit): every code the simulated Oracle delivers is
the decimal string of an integer between 100000 and 999999 inclusive, and
in particular is never the sentinel string "EXPIRED"; so a delivered code,
the expiry sentinel and the no-code `None` are pairwise unambiguous to the
caller of poll. -/
theorem c10_oracle_codes_unambiguous (fired : Bool) (seed : Nat)
    (code : String) (h : simulate_api_check fired seed = some code) :
    (∃ n : Nat, 100000 ≤ n ∧ n ≤ 999999 ∧ code = Nat.repr n) ∧
    code ≠ "EXPIRED" := by
  rw [simulate_api_check] at h
  cases fired with
  | false => simp at h
  | true =>
    have hcode : code = Nat.repr (randint 100000 999999 seed) :=
      (Option.some.inj (by simpa using h)).symm
    refine ⟨⟨randint 100000 999999 seed, ?_, ?_, hcode⟩, ?_⟩
    · rw [randint]
      exact Nat.le_add_right _ _
    · rw [randint]
      have hm : seed % (999999 + 1 - 100000) < 999999 + 1 - 100000 :=
        Nat.mod_lt _ (by decide)
      omega
    · rw [hcode]
      exact repr_ne_EXPIRED _

/-- C10 (witness): the theorem applied to the oracle firing with seed 0,
which delivers the code "100000". -/
theorem c10_witness : Nat.repr 100000 ≠ "EXPIRED" :=
  (c10_oracle_codes_unambiguous true 0 (Nat.repr 100000) rfl).2
